import Mathlib

/-
Verification of the DingTalk stream-connection monitor
(src/extensions/dingtalk/src/monitor.ts).

The monitor consists of three parts, each embedded below:
 - the message dedup cache (a JS Set of processed message ids plus a JS Map
   from message id to first-seen timestamp, with capacity 10000 and a
   5-minute TTL);
 - the inbound event dispatcher (the TOPIC_ROBOT callback registered on the
   stream client);
 - the connection lifecycle controller (monitorDingtalkProvider /
   stopDingtalkMonitor / isMonitorActive / getCurrentAccountId), with its
   module-level mutable state made explicit as a state record.

JS Sets and insertion-ordered JS Maps are embedded as lists: a Set is the
list of its elements in insertion order (no duplicates) and a Map is the
list of its key-value pairs in insertion order.  JS truthiness checks on
strings (`if (oldestId)`, `if (currentAccountId && ...)`,
`if (res?.headers?.messageId)`, `rawMessage.streamMessageId ? _ : _`) are
embedded as explicit comparisons with the empty string, since the empty
string is falsy in JS.
-/

namespace DingtalkMonitor

/-! ## Dedup cache (monitor.ts lines 48-106 and 314-322) -/

/-- Embeds `DEDUP_CACHE_MAX_SIZE = 10000` (monitor.ts line 55). -/
def DEDUP_CACHE_MAX_SIZE : Nat := 10000

/-- Embeds `DEDUP_CACHE_TTL = 5 * 60 * 1000` milliseconds (monitor.ts line 58). -/
def DEDUP_CACHE_TTL : Nat := 5 * 60 * 1000

/-- Embeds the two module-level stores of the dedup cache:
`processedMessageIds` (a JS `Set<string>`, line 52) and
`processedMessageTimestamps` (a JS `Map<string, number>`, line 61), both kept
in insertion order. -/
structure DedupCache where
  processedMessageIds : List String
  processedMessageTimestamps : List (String × Nat)
deriving DecidableEq

/-- The initial (empty) dedup cache. -/
def emptyDedupCache : DedupCache := ⟨[], []⟩

/-- Embeds `Set.add`: appends the element unless already present. -/
def setAdd (s : List String) (k : String) : List String :=
  if s.contains k then s else s ++ [k]

/-- Embeds `Set.delete`: removes the element. -/
def setDelete (s : List String) (k : String) : List String :=
  s.filter fun x => !(x == k)

/-- Embeds `Map.set`: updates the value in place when the key is present
(keeping its insertion position), otherwise appends the pair. -/
def mapSet (m : List (String × Nat)) (k : String) (v : Nat) : List (String × Nat) :=
  if m.any (fun e => e.1 == k) then m.map fun e => if e.1 == k then (k, v) else e
  else m ++ [(k, v)]

/-- Embeds `Map.delete`: removes the entry with the given key. -/
def mapDelete (m : List (String × Nat)) (k : String) : List (String × Nat) :=
  m.filter fun e => !(e.1 == k)

/-- True when the timestamp map holds an entry for `k` whose age at `now`
exceeds the TTL, i.e. `now - timestamp > DEDUP_CACHE_TTL` (monitor.ts
line 69).  Used to express which ids the cleanup loop deletes from the Set. -/
def expiredInMap (m : List (String × Nat)) (now : Nat) (k : String) : Bool :=
  m.any fun e => e.1 == k && decide (DEDUP_CACHE_TTL < now - e.2)

/-- Embeds `cleanupDedupCache` (monitor.ts lines 66-74): iterates over the
timestamp map and deletes every expired entry from both stores.  `Date.now()`
is passed in as `now`. -/
def cleanupDedupCache (now : Nat) (c : DedupCache) : DedupCache :=
  { processedMessageIds :=
      c.processedMessageIds.filter fun k => !expiredInMap c.processedMessageTimestamps now k
    processedMessageTimestamps :=
      c.processedMessageTimestamps.filter fun e => !decide (DEDUP_CACHE_TTL < now - e.2) }

/-- Embeds `isMessageProcessed` (monitor.ts lines 82-84). -/
def isMessageProcessed (messageId : String) (c : DedupCache) : Bool :=
  c.processedMessageIds.contains messageId

/-- Embeds `markMessageProcessed` (monitor.ts lines 91-106).  When the cache
is at capacity it first runs a cleanup pass; if still at capacity it reads
the oldest key of the timestamp map (`keys().next().value`) and deletes it
from both stores, but only when that key is truthy (`if (oldestId)`), i.e.
present and not the empty string.  Finally the new id is inserted into both
stores with the current timestamp. -/
def markMessageProcessed (messageId : String) (now : Nat) (c : DedupCache) : DedupCache :=
  let c' :=
    if DEDUP_CACHE_MAX_SIZE ≤ c.processedMessageIds.length then
      let c1 := cleanupDedupCache now c
      if DEDUP_CACHE_MAX_SIZE ≤ c1.processedMessageIds.length then
        match c1.processedMessageTimestamps.head? with
        | some oldest =>
          if oldest.1 ≠ "" then
            { processedMessageIds := setDelete c1.processedMessageIds oldest.1
              processedMessageTimestamps := mapDelete c1.processedMessageTimestamps oldest.1 }
          else c1
        | none => c1
      else c1
    else c
  { processedMessageIds := setAdd c'.processedMessageIds messageId
    processedMessageTimestamps := mapSet c'.processedMessageTimestamps messageId now }

/-- The key that `markMessageProcessed` would evict at time `now` on cache
`c`, if any: computed by the same branch structure as the eviction step of
`markMessageProcessed`. -/
def markEvictTarget (now : Nat) (c : DedupCache) : Option String :=
  if DEDUP_CACHE_MAX_SIZE ≤ c.processedMessageIds.length then
    let c1 := cleanupDedupCache now c
    if DEDUP_CACHE_MAX_SIZE ≤ c1.processedMessageIds.length then
      match c1.processedMessageTimestamps.head? with
      | some oldest => if oldest.1 ≠ "" then some oldest.1 else none
      | none => none
    else none
  else none

/-- Embeds `clearDedupCache` (monitor.ts lines 319-322): clears both stores. -/
def clearDedupCache (_c : DedupCache) : DedupCache :=
  { processedMessageIds := [], processedMessageTimestamps := [] }

/-- The operations that mutate the dedup cache. -/
inductive CacheOp
  | mark (messageId : String) (now : Nat)
  | cleanup (now : Nat)
  | clear
deriving DecidableEq

/-- Applies one cache operation. -/
def applyCacheOp (c : DedupCache) : CacheOp → DedupCache
  | .mark messageId now => markMessageProcessed messageId now c
  | .cleanup now => cleanupDedupCache now c
  | .clear => clearDedupCache c

/-- Applies a sequence of cache operations in order. -/
def applyCacheOps (c : DedupCache) (ops : List CacheOp) : DedupCache :=
  ops.foldl applyCacheOp c

/-! ## Inbound event dispatcher (monitor.ts lines 215-255) -/

/-- Embeds the `text` field of `DingtalkRawMessage`: `text?: { content?: string }`. -/
structure DingtalkTextBody where
  content : Option String
deriving DecidableEq

/-- Embeds the fields of `DingtalkRawMessage` that the dispatcher reads.
`streamMessageId` is a plain string with `""` standing for an absent or empty
field, since the dispatcher only ever tests it for JS truthiness. -/
structure DingtalkRawMessage where
  streamMessageId : String
  conversationId : String
  senderId : String
  text : Option DingtalkTextBody
  msgtype : String
deriving DecidableEq

/-- Embeds one delivery from the transport to the TOPIC_ROBOT callback.
`parseOk` is whether `JSON.parse(res.data)` succeeds (when it does, `payload`
is the parsed `DingtalkRawMessage`); `headerMessageId` embeds
`res.headers?.messageId` with `""` for absent; `handlerFails` is whether the
downstream `handleDingtalkMessage` promise later rejects. -/
structure RobotCallbackInput where
  parseOk : Bool
  headerMessageId : String
  payload : DingtalkRawMessage
  handlerFails : Bool
deriving DecidableEq

/-- Embeds the `EventAck` values of the dingtalk-stream SDK that the callback
could return. -/
inductive EventAck
  | SUCCESS
  | FAILURE
deriving DecidableEq

/-- Observable dispatcher state: the dedup cache plus the observable effects
of one session's callback — the dedupe ids for which `handleDingtalkMessage`
was invoked (in order), and the counts of error and duplicate log lines. -/
structure DispatchState where
  cache : DedupCache
  handlerCalls : List String
  errorLogs : Nat
  duplicateLogs : Nat
deriving DecidableEq

/-- Embeds monitor.ts lines 219-221: if `res.headers.messageId` is truthy it
overwrites `rawMessage.streamMessageId`. -/
def attachStreamMessageId (headerMessageId : String) (m : DingtalkRawMessage) :
    DingtalkRawMessage :=
  if headerMessageId ≠ "" then { m with streamMessageId := headerMessageId } else m

/-- Embeds the dedupe-key computation (monitor.ts lines 224-226): prefer
`accountId:streamMessageId` when the stream message id is truthy, else fall
back to `accountId:conversationId_senderId_<first 50 chars of text content,
or msgtype when the optional chain is undefined>`. -/
def dedupeIdOf (accountId : String) (m : DingtalkRawMessage) : String :=
  if m.streamMessageId ≠ "" then accountId ++ ":" ++ m.streamMessageId
  else
    accountId ++ ":" ++ m.conversationId ++ "_" ++ m.senderId ++ "_" ++
      (match m.text.bind DingtalkTextBody.content with
       | some s => s.take 50
       | none => m.msgtype)

/-- Embeds the TOPIC_ROBOT callback body (monitor.ts lines 215-255).  A parse
failure is caught, logged and acknowledged with SUCCESS.  A duplicate is
logged and acknowledged with SUCCESS without invoking the handler.  A novel
message is marked processed first, then `handleDingtalkMessage` is invoked
fire-and-forget (a later rejection is caught and logged), and SUCCESS is
returned immediately. -/
def robotCallback (accountId : String) (now : Nat) (res : RobotCallbackInput)
    (st : DispatchState) : DispatchState × EventAck :=
  if res.parseOk then
    let rawMessage := attachStreamMessageId res.headerMessageId res.payload
    let dedupeId := dedupeIdOf accountId rawMessage
    if isMessageProcessed dedupeId st.cache then
      ({ st with duplicateLogs := st.duplicateLogs + 1 }, .SUCCESS)
    else
      let st' : DispatchState :=
        { st with cache := markMessageProcessed dedupeId now st.cache
                  handlerCalls := st.handlerCalls ++ [dedupeId] }
      let st'' := if res.handlerFails then { st' with errorLogs := st'.errorLogs + 1 } else st'
      (st'', .SUCCESS)
  else ({ st with errorLogs := st.errorLogs + 1 }, .SUCCESS)

/-! ## Connection lifecycle controller (monitor.ts lines 36-46, 120-312) -/

/-- Embeds the per-session closure state created by one run of the Promise
executor (monitor.ts lines 158-265): the captured `client`, the promise being
settled, whether an `abortSignal` was supplied, the one-shot `stopped` guard
flag, and whether the abort listener is currently registered. -/
structure SessionRec where
  client : Nat
  promise : Nat
  hasSignal : Bool
  stopped : Bool
  listenerRegistered : Bool
deriving DecidableEq

/-- Embeds the module-level mutable state of monitor.ts (lines 36-46)
together with the record of externally observable effects.  Clients and
promises are identified by numbers drawn from `nextId`; `currentStop` holds
the index into `sessions` of the closure currently exposed as the stop hook.
`disconnectCalls`, `connectCalls`, `resolvedPromises` and `rejectedPromises`
log every `client.disconnect()`, `client.connect()`, `resolve()` and
`reject()` call in order. -/
structure GlobalState where
  currentClient : Option Nat
  currentAccountId : Option String
  currentPromise : Option Nat
  currentStop : Option Nat
  sessions : List SessionRec
  nextId : Nat
  createdClients : Nat
  connectCalls : List Nat
  disconnectCalls : List Nat
  resolvedPromises : List Nat
  rejectedPromises : List Nat
deriving DecidableEq

/-- The state at module load: all four module-level variables are null and
nothing has happened yet. -/
def initialGlobalState : GlobalState :=
  ⟨none, none, none, none, [], 0, 0, [], [], [], []⟩

/-- Embeds the inputs of one `monitorDingtalkProvider(opts)` call together
with the behaviour of its external collaborators: `hasConfig` is the presence
of `config?.channels?.dingtalk`; `accountIdOpt` is the `accountId` option
(`none` for absent, which defaults to `"default"`); `hasSignal` and `aborted`
describe the `abortSignal`; `constructFails` is whether
`createDingtalkClientFromConfig` throws; `connectFails` is whether the
register/connect block throws synchronously. -/
structure MonitorDingtalkOpts where
  hasConfig : Bool
  accountIdOpt : Option String
  hasSignal : Bool
  aborted : Bool
  constructFails : Bool
  connectFails : Bool
deriving DecidableEq

/-- Embeds the truthiness guard `currentAccountId && currentAccountId !==
accountId` (monitor.ts line 128): true only when the current account id is
non-null, not the empty string, and different from the requested one. -/
def busyConflict (cur : Option String) (accountId : String) : Bool :=
  match cur with
  | some a => !(a == "") && !(a == accountId)
  | none => false

/-- The errors `monitorDingtalkProvider` can throw synchronously. -/
inductive StartError
  | busy (accountId : String)
  | invalidState
  | configNotFound
  | constructError
deriving DecidableEq

/-- Embeds the `cleanup` closure (monitor.ts lines 162-174) of the session
`s`: if the module still points at this session's client, all four
module-level variables are nulled; then `client.disconnect()` is always
attempted (errors swallowed). -/
def sessionCleanup (s : SessionRec) (st : GlobalState) : GlobalState :=
  let st1 :=
    if st.currentClient = some s.client then
      { st with currentClient := none, currentAccountId := none,
                currentStop := none, currentPromise := none }
    else st
  { st1 with disconnectCalls := st1.disconnectCalls ++ [s.client] }

/-- Embeds the `finalizeResolve` closure (monitor.ts lines 176-182) of the
session at index `i`: a no-op when the guard flag is already set, otherwise
it sets the guard, deregisters the abort listener, runs `cleanup`, and
resolves the session's promise. -/
def finalizeResolve (i : Nat) (st : GlobalState) : GlobalState :=
  match st.sessions[i]? with
  | none => st
  | some s =>
    if s.stopped then st
    else
      let st1 :=
        { st with sessions :=
            st.sessions.set i { s with stopped := true, listenerRegistered := false } }
      let st2 := sessionCleanup s st1
      { st2 with resolvedPromises := st2.resolvedPromises ++ [s.promise] }

/-- Embeds the `finalizeReject` closure (monitor.ts lines 184-190), identical
to `finalizeResolve` except that the promise is rejected. -/
def finalizeReject (i : Nat) (st : GlobalState) : GlobalState :=
  match st.sessions[i]? with
  | none => st
  | some s =>
    if s.stopped then st
    else
      let st1 :=
        { st with sessions :=
            st.sessions.set i { s with stopped := true, listenerRegistered := false } }
      let st2 := sessionCleanup s st1
      { st2 with rejectedPromises := st2.rejectedPromises ++ [s.promise] }

/-- Embeds one `monitorDingtalkProvider(opts)` call (monitor.ts lines
120-268) as a state transformation returning either a thrown `StartError` or
the promise that the call returns.  The body follows the source line by
line: the single-account guard with its truthiness test on
`currentAccountId`, config validation, client construction, the Promise
executor (which runs synchronously: stop hook exposure, already-aborted
check, listener registration, callback registration and connect), and only
then the assignment `currentPromise = <new promise>`. -/
def monitorDingtalkProvider (opts : MonitorDingtalkOpts) (st : GlobalState) :
    GlobalState × Except StartError Nat :=
  let accountId := opts.accountIdOpt.getD "default"
  match st.currentClient with
  | some _ =>
    if busyConflict st.currentAccountId accountId then
      (st, .error (.busy (st.currentAccountId.getD "")))
    else
      match st.currentPromise with
      | some p => (st, .ok p)
      | none => (st, .error .invalidState)
  | none =>
    if !opts.hasConfig then (st, .error .configNotFound)
    else if opts.constructFails then (st, .error .constructError)
    else
      let client := st.nextId
      let st1 :=
        { st with nextId := st.nextId + 1, createdClients := st.createdClients + 1,
                  currentClient := some client, currentAccountId := some accountId }
      let promise := st1.nextId
      let i := st1.sessions.length
      let s : SessionRec :=
        { client := client, promise := promise, hasSignal := opts.hasSignal,
          stopped := false, listenerRegistered := false }
      let st2 :=
        { st1 with nextId := st1.nextId + 1, sessions := st1.sessions ++ [s],
                   currentStop := some i }
      if opts.hasSignal && opts.aborted then
        let st3 := finalizeResolve i st2
        ({ st3 with currentPromise := some promise }, .ok promise)
      else
        let st3 :=
          if opts.hasSignal then
            { st2 with sessions :=
                st2.sessions.set i { s with listenerRegistered := true } }
          else st2
        if opts.connectFails then
          let st4 := finalizeReject i st3
          ({ st4 with currentPromise := some promise }, .ok promise)
        else
          ({ st3 with connectCalls := st3.connectCalls ++ [client],
                      currentPromise := some promise }, .ok promise)

/-- Embeds `stopDingtalkMonitor` (monitor.ts lines 273-290): call the stop
hook when present; otherwise, when a client is lingering, disconnect it and
null all module state; otherwise do nothing. -/
def stopDingtalkMonitor (st : GlobalState) : GlobalState :=
  match st.currentStop with
  | some i => finalizeResolve i st
  | none =>
    match st.currentClient with
    | some c =>
      { st with disconnectCalls := st.disconnectCalls ++ [c],
                currentClient := none, currentAccountId := none,
                currentPromise := none, currentStop := none }
    | none => st

/-- Embeds `isMonitorActive` (monitor.ts lines 299-301). -/
def isMonitorActive (st : GlobalState) : Bool :=
  st.currentClient.isSome

/-- Embeds `getCurrentAccountId` (monitor.ts lines 310-312). -/
def getCurrentAccountId (st : GlobalState) : Option String :=
  st.currentAccountId

/-- Embeds the firing of the abort signal subscribed at session `i`
(monitor.ts lines 193-196 and 211): the `handleAbort` listener, registered
with `once: true`, runs `finalizeResolve`; once deregistered (or never
registered) the firing is a no-op. -/
def fireAbort (i : Nat) (st : GlobalState) : GlobalState :=
  match st.sessions[i]? with
  | some s => if s.listenerRegistered then finalizeResolve i st else st
  | none => st

/-- The two teardown triggers of a running session: a manual
`stopDingtalkMonitor()` call and the abort signal firing. -/
inductive StopTrigger
  | stopCall
  | abortFire
deriving DecidableEq

/-- Applies one teardown trigger, with abort firings delivered to the
session at index `i`. -/
def applyTrigger (i : Nat) (st : GlobalState) : StopTrigger → GlobalState
  | .stopCall => stopDingtalkMonitor st
  | .abortFire => fireAbort i st

/-- Applies a sequence of teardown triggers in order. -/
def applyTriggers (i : Nat) (st : GlobalState) (ts : List StopTrigger) : GlobalState :=
  ts.foldl (applyTrigger i) st

/-! ## Concrete inputs used by witnesses and counterexamples -/

/-- Options for a plain successful start: config present, an abort signal
supplied and not yet aborted, and all collaborators succeeding. -/
def activeOpts (a : String) : MonitorDingtalkOpts :=
  { hasConfig := true, accountIdOpt := some a, hasSignal := true, aborted := false,
    constructFails := false, connectFails := false }

/-- The state after one successful start for account `a` from the pristine
module state. -/
def startedState (a : String) : GlobalState :=
  (monitorDingtalkProvider (activeOpts a) initialGlobalState).1

/-- The state of a torn-down single session: guard flag set, listener gone,
module variables nulled, exactly one disconnect and one resolution. -/
def stoppedState : GlobalState :=
  ⟨none, none, none, none, [⟨0, 1, true, true, false⟩], 2, 1, [0], [0], [1], []⟩

/-! ## Invariants and concrete inputs used below -/

/-- The two dedup stores are views of one another: the Set is exactly the
key column of the timestamp Map (same keys in the same insertion order), and
holds no duplicates. -/
def CacheSync (c : DedupCache) : Prop :=
  c.processedMessageIds = c.processedMessageTimestamps.map Prod.fst
    ∧ c.processedMessageIds.Nodup

/-- Invariant for the capacity bound: the stores are in sync, every cached
key is non-empty, and the size is within capacity. -/
def BoundedInv (c : DedupCache) : Prop :=
  CacheSync c
    ∧ (∀ k ∈ c.processedMessageIds, k ≠ "")
    ∧ c.processedMessageIds.length ≤ DEDUP_CACHE_MAX_SIZE

/-- Folds a list of keys into the cache via `markMessageProcessed`, all at
timestamp 0. -/
def insertKeys (ks : List String) (c : DedupCache) : DedupCache :=
  ks.foldl (fun c k => markMessageProcessed k 0 c) c

/-- The i-th pairwise-distinct non-empty key: a run of `i + 1` letters. -/
def c3key (i : Nat) : String :=
  String.mk (List.replicate (i + 1) 'a')

/-- A capacity-filling key list whose oldest element is the empty string:
`""` followed by 9999 pairwise-distinct non-empty keys. -/
def c3keys : List String :=
  "" :: (List.range 9999).map c3key

/-- A fresh key distinct from every element of `c3keys` (its length is
10000, all `c3keys` elements are shorter). -/
def c3newKey : String :=
  String.mk (List.replicate 10000 'a')

/-- The cache filled to capacity with `c3keys`, all stamped at time 0. -/
def c3mid : DedupCache :=
  ⟨c3keys, c3keys.map (fun k => (k, 0))⟩

/-- A raw message without a payload stream id, used by the C1 witness. -/
def c1msg : DingtalkRawMessage :=
  ⟨"", "conv1", "sender1", none, "text"⟩

/-- First delivery of the event with stream message id `m1`. -/
def c1res1 : RobotCallbackInput :=
  ⟨true, "m1", c1msg, false⟩

/-- Redelivery of the same event (same dedupe key), whose downstream handler
would fail. -/
def c1res2 : RobotCallbackInput :=
  ⟨true, "m1", c1msg, true⟩

/-- Pristine dispatcher state. -/
def c1state : DispatchState :=
  ⟨emptyDedupCache, [], 0, 0⟩

/-- A one-entry cache used by the C7 witness. -/
def c7cache : DedupCache :=
  markMessageProcessed "a" 0 emptyDedupCache

/-- Start options with config present and no abort signal, for account
`"acct"`. -/
def c5opts : MonitorDingtalkOpts :=
  { hasConfig := true, accountIdOpt := some "acct", hasSignal := false, aborted := false,
    constructFails := false, connectFails := false }

/-- The state after a successful start for account `"acct"`. -/
def c5started : GlobalState :=
  (monitorDingtalkProvider c5opts initialGlobalState).1

/-- Start options for a different account `"other"`. -/
def c4otherOpts : MonitorDingtalkOpts :=
  { hasConfig := true, accountIdOpt := some "other", hasSignal := false, aborted := false,
    constructFails := false, connectFails := false }

/-- Start options for the empty-string account id (which JS truthiness
treats as absent in the busy guard). -/
def c4emptyOpts : MonitorDingtalkOpts :=
  { hasConfig := true, accountIdOpt := some "", hasSignal := false, aborted := false,
    constructFails := false, connectFails := false }

/-- The state after a successful start for the empty-string account id. -/
def c4emptyStarted : GlobalState :=
  (monitorDingtalkProvider c4emptyOpts initialGlobalState).1

/-- Start options whose abort signal is already in the aborted state. -/
def c6opts : MonitorDingtalkOpts :=
  { hasConfig := true, accountIdOpt := some "acct", hasSignal := true, aborted := true,
    constructFails := false, connectFails := false }

/-- Start options with the DingTalk channel configuration absent. -/
def c8opts : MonitorDingtalkOpts :=
  { hasConfig := false, accountIdOpt := some "acct", hasSignal := false, aborted := false,
    constructFails := false, connectFails := false }

/-! ## Helper lemmas about the cache primitives -/

theorem contains_iff_mem_str (l : List String) (a : String) : l.contains a = true ↔ a ∈ l := by
  simp [List.contains_eq_any_beq, List.any_eq_true]

theorem contains_false_iff_not_mem_str (l : List String) (a : String) :
    l.contains a = false ↔ a ∉ l := by
  rw [← Bool.not_eq_true, not_iff_not]
  exact contains_iff_mem_str l a

theorem mem_setAdd_iff {l : List String} {k a : String} :
    a ∈ setAdd l k ↔ a ∈ l ∨ a = k := by
  unfold setAdd
  by_cases h : l.contains k = true
  · rw [if_pos h]
    constructor
    · exact Or.inl
    · rintro (ha | rfl)
      · exact ha
      · exact (contains_iff_mem_str l a).mp h
  · rw [if_neg h]
    simp [List.mem_append]

theorem contains_setAdd_self (l : List String) (k : String) :
    (setAdd l k).contains k = true :=
  (contains_iff_mem_str _ _).mpr (mem_setAdd_iff.mpr (Or.inr rfl))

theorem contains_setAdd_of_mem {l : List String} {a : String} (h : a ∈ l) (k : String) :
    (setAdd l k).contains a = true :=
  (contains_iff_mem_str _ _).mpr (mem_setAdd_iff.mpr (Or.inl h))

theorem length_setAdd_le (l : List String) (k : String) :
    (setAdd l k).length ≤ l.length + 1 := by
  unfold setAdd
  split
  · exact Nat.le_succ _
  · simp

theorem nodup_setAdd {l : List String} (h : l.Nodup) (k : String) : (setAdd l k).Nodup := by
  unfold setAdd
  by_cases hc : l.contains k = true
  · rw [if_pos hc]
    exact h
  · rw [if_neg hc]
    refine List.Nodup.append h (List.nodup_singleton k) ?_
    rw [List.disjoint_singleton]
    exact (contains_false_iff_not_mem_str l k).mp (Bool.eq_false_iff.mpr hc)

theorem mem_of_mem_setDelete {l : List String} {o a : String} (h : a ∈ setDelete l o) :
    a ∈ l :=
  (List.mem_filter.mp h).1

theorem mem_setDelete_of_mem {l : List String} {o a : String} (ha : a ∈ l) (hne : a ≠ o) :
    a ∈ setDelete l o := by
  refine List.mem_filter.mpr ⟨ha, ?_⟩
  simp [hne]

theorem length_setDelete_lt {l : List String} {o : String} (h : o ∈ l) :
    (setDelete l o).length < l.length := by
  unfold setDelete
  rw [List.length_filter_lt_length_iff_exists]
  exact ⟨o, h, by simp⟩

theorem map_fst_mapSet (m : List (String × Nat)) (k : String) (v : Nat) :
    (mapSet m k v).map Prod.fst = setAdd (m.map Prod.fst) k := by
  unfold mapSet setAdd
  have hiff : (m.map Prod.fst).contains k = true ↔ m.any (fun e => e.1 == k) = true := by
    simp [contains_iff_mem_str, List.any_eq_true, List.mem_map]
  by_cases h : m.any (fun e => e.1 == k) = true
  · rw [if_pos h, if_pos (hiff.mpr h), List.map_map]
    refine List.map_congr_left ?_
    intro e _
    by_cases hek : e.1 = k
    · simp [Function.comp, hek]
    · simp [Function.comp, hek]
  · rw [if_neg h, if_neg (fun hc => h (hiff.mp hc))]
    simp

theorem map_fst_mapDelete (m : List (String × Nat)) (o : String) :
    (mapDelete m o).map Prod.fst = setDelete (m.map Prod.fst) o := by
  unfold mapDelete setDelete
  rw [List.filter_map]
  rfl

theorem expiredInMap_eq_false_of_not_mem {m : List (String × Nat)} {now : Nat} {k : String}
    (h : k ∉ m.map Prod.fst) : expiredInMap m now k = false := by
  unfold expiredInMap
  rw [List.any_eq_false]
  intro e he
  simp only [Bool.and_eq_true, beq_iff_eq, decide_eq_true_eq, not_and]
  intro h1 _
  exact h (List.mem_map.mpr ⟨e, he, h1⟩)

theorem map_fst_cleanup_filter (now : Nat) (ts : List (String × Nat))
    (h : (ts.map Prod.fst).Nodup) :
    (ts.map Prod.fst).filter (fun k => !expiredInMap ts now k)
      = (ts.filter fun e => !decide (DEDUP_CACHE_TTL < now - e.2)).map Prod.fst := by
  induction ts with
  | nil => rfl
  | cons e rest ih =>
    rw [List.map_cons, List.nodup_cons] at h
    obtain ⟨h1, h2⟩ := h
    have hrest0 : expiredInMap rest now e.1 = false := expiredInMap_eq_false_of_not_mem h1
    have hhead : expiredInMap (e :: rest) now e.1 = decide (DEDUP_CACHE_TTL < now - e.2) := by
      unfold expiredInMap at hrest0 ⊢
      rw [List.any_cons, hrest0]
      simp
    have htail : (rest.map Prod.fst).filter (fun k => !expiredInMap (e :: rest) now k)
        = (rest.map Prod.fst).filter (fun k => !expiredInMap rest now k) := by
      refine List.filter_congr ?_
      intro k hk
      have hek : (e.1 == k) = false := by
        have : ¬ e.1 = k := fun hcontra => h1 (hcontra ▸ hk)
        simp [this]
      unfold expiredInMap
      rw [List.any_cons, hek]
      simp
    rw [List.map_cons, List.filter_cons, List.filter_cons, hhead, htail, ih h2]
    cases hd : decide (DEDUP_CACHE_TTL < now - e.2) <;> simp

/-! ## Preservation of the store-synchronisation invariant -/

theorem cacheSync_empty : CacheSync emptyDedupCache :=
  ⟨rfl, List.nodup_nil⟩

theorem cacheSync_cleanup {c : DedupCache} (h : CacheSync c) (now : Nat) :
    CacheSync (cleanupDedupCache now c) := by
  obtain ⟨hs, hn⟩ := h
  constructor
  · show c.processedMessageIds.filter _ = _
    rw [hs]
    exact map_fst_cleanup_filter now c.processedMessageTimestamps (hs ▸ hn)
  · exact List.Nodup.filter _ hn

theorem cacheSync_evict {c : DedupCache} (h : CacheSync c) (o : String) :
    CacheSync ⟨setDelete c.processedMessageIds o, mapDelete c.processedMessageTimestamps o⟩ := by
  obtain ⟨hs, hn⟩ := h
  constructor
  · show setDelete c.processedMessageIds o = _
    rw [map_fst_mapDelete, hs]
  · exact List.Nodup.filter _ hn

theorem cacheSync_addPhase {c : DedupCache} (h : CacheSync c) (k : String) (v : Nat) :
    CacheSync ⟨setAdd c.processedMessageIds k, mapSet c.processedMessageTimestamps k v⟩ := by
  obtain ⟨hs, hn⟩ := h
  refine ⟨?_, nodup_setAdd hn k⟩
  show setAdd c.processedMessageIds k = (mapSet c.processedMessageTimestamps k v).map Prod.fst
  rw [map_fst_mapSet, hs]

theorem cacheSync_mark {c : DedupCache} (h : CacheSync c) (k : String) (now : Nat) :
    CacheSync (markMessageProcessed k now c) := by
  simp only [markMessageProcessed]
  apply cacheSync_addPhase
  split
  · split
    · split
      · split
        · exact cacheSync_evict (cacheSync_cleanup h now) _
        · exact cacheSync_cleanup h now
      · exact cacheSync_cleanup h now
    · exact cacheSync_cleanup h now
  · exact h

theorem cacheSync_clear (c : DedupCache) : CacheSync (clearDedupCache c) :=
  ⟨rfl, List.nodup_nil⟩

theorem cacheSync_applyOp {c : DedupCache} (h : CacheSync c) (op : CacheOp) :
    CacheSync (applyCacheOp c op) := by
  cases op with
  | mark messageId now => exact cacheSync_mark h messageId now
  | cleanup now => exact cacheSync_cleanup h now
  | clear => exact cacheSync_clear c

theorem cacheSync_applyOps {c : DedupCache} (h : CacheSync c) (ops : List CacheOp) :
    CacheSync (applyCacheOps c ops) := by
  induction ops generalizing c with
  | nil => exact h
  | cons op ops ih => exact ih (cacheSync_applyOp h op)

/-- Claim C10: after any sequence of cache operations starting from the
empty cache, the Set of processed message ids and the timestamp Map hold
exactly the same keys — indeed the Set equals the key column of the Map. -/
theorem claim_C10_stores_hold_same_keys (ops : List CacheOp) :
    (applyCacheOps emptyDedupCache ops).processedMessageIds
      = (applyCacheOps emptyDedupCache ops).processedMessageTimestamps.map Prod.fst :=
  (cacheSync_applyOps cacheSync_empty ops).1

/-! ## The capacity bound -/

theorem mem_cleanup_subset {c : DedupCache} {now : Nat} {a : String}
    (h : a ∈ (cleanupDedupCache now c).processedMessageIds) : a ∈ c.processedMessageIds :=
  (List.mem_filter.mp h).1

theorem mem_of_head?_eq_some {α : Type} {l : List α} {a : α} (h : l.head? = some a) :
    a ∈ l := by
  cases l with
  | nil => cases h
  | cons b t =>
    simp only [List.head?_cons, Option.some.injEq] at h
    rw [← h]
    exact List.mem_cons_self b t

theorem mem_mark_ids {c : DedupCache} {k : String} {now : Nat} {a : String}
    (h : a ∈ (markMessageProcessed k now c).processedMessageIds) :
    a ∈ c.processedMessageIds ∨ a = k := by
  simp only [markMessageProcessed] at h
  rcases mem_setAdd_iff.mp h with h' | rfl
  · left
    split at h'
    · split at h'
      · split at h'
        · split at h'
          · exact mem_cleanup_subset (mem_of_mem_setDelete h')
          · exact mem_cleanup_subset h'
        · exact mem_cleanup_subset h'
      · exact mem_cleanup_subset h'
    · exact h'
  · right
    rfl

theorem boundedInv_empty : BoundedInv emptyDedupCache :=
  ⟨cacheSync_empty, fun a ha => absurd ha (List.not_mem_nil a), Nat.zero_le _⟩

theorem boundedInv_mark {c : DedupCache} (h : BoundedInv c) {k : String} (hk : k ≠ "")
    (now : Nat) : BoundedInv (markMessageProcessed k now c) := by
  obtain ⟨hsync, hne, hlen⟩ := h
  refine ⟨cacheSync_mark hsync k now, ?_, ?_⟩
  · intro a ha
    rcases mem_mark_ids ha with h' | rfl
    · exact hne a h'
    · exact hk
  · simp only [markMessageProcessed]
    split
    · next hcap =>
      have hsync1 : CacheSync (cleanupDedupCache now c) := cacheSync_cleanup hsync now
      have hlen1 : (cleanupDedupCache now c).processedMessageIds.length
          ≤ c.processedMessageIds.length := List.length_filter_le _ _
      split
      · next hcap1 =>
        split
        · next oldest hhead =>
          have hmem : oldest ∈ (cleanupDedupCache now c).processedMessageTimestamps :=
            mem_of_head?_eq_some hhead
          have hmemid : oldest.1 ∈ (cleanupDedupCache now c).processedMessageIds := by
            rw [hsync1.1]
            exact List.mem_map.mpr ⟨oldest, hmem, rfl⟩
          have hone : oldest.1 ≠ "" := hne _ (mem_cleanup_subset hmemid)
          rw [if_pos hone]
          have h2 : (setDelete (cleanupDedupCache now c).processedMessageIds oldest.1).length
              < (cleanupDedupCache now c).processedMessageIds.length :=
            length_setDelete_lt hmemid
          exact le_trans (length_setAdd_le _ _)
            (le_trans (Nat.succ_le_of_lt h2) (le_trans hlen1 hlen))
        · next hhead =>
          have hts : (cleanupDedupCache now c).processedMessageTimestamps = [] :=
            List.head?_eq_none_iff.mp hhead
          have hids : (cleanupDedupCache now c).processedMessageIds = [] := by
            rw [hsync1.1, hts]
            rfl
          refine le_trans (length_setAdd_le _ _) ?_
          rw [hids]
          decide
      · next hcap1 =>
        exact le_trans (length_setAdd_le _ _) (Nat.succ_le_of_lt (Nat.lt_of_not_le hcap1))
    · next hcap =>
      exact le_trans (length_setAdd_le _ _) (Nat.succ_le_of_lt (Nat.lt_of_not_le hcap))

theorem boundedInv_foldl (inserts : List (String × Nat)) :
    ∀ c : DedupCache, BoundedInv c → (∀ p ∈ inserts, p.1 ≠ "") →
      BoundedInv (inserts.foldl (fun c p => markMessageProcessed p.1 p.2 c) c) := by
  induction inserts with
  | nil =>
    intro c hc _
    exact hc
  | cons p ps ih =>
    intro c hc hk
    rw [List.foldl_cons]
    exact ih _ (boundedInv_mark hc (hk p (List.mem_cons_self _ _)) p.2)
      (fun q hq => hk q (List.mem_cons_of_mem _ hq))

/-- Claim C3, amended: after any finite sequence of `markMessageProcessed`
insertions whose keys are all non-empty, the cache holds at most
`DEDUP_CACHE_MAX_SIZE` entries.  (The restriction to non-empty keys is
forced: the eviction step's truthiness test `if (oldestId)` skips eviction
when the oldest key is the empty string — see the counterexample below.) -/
theorem claim_C3_amended_capacity (inserts : List (String × Nat))
    (hk : ∀ p ∈ inserts, p.1 ≠ "") :
    ((inserts.foldl (fun c p => markMessageProcessed p.1 p.2 c)
        emptyDedupCache).processedMessageIds).length ≤ DEDUP_CACHE_MAX_SIZE :=
  (boundedInv_foldl inserts emptyDedupCache boundedInv_empty hk).2.2

/-- Witness for the amended claim C3 at a concrete insertion sequence. -/
theorem claim_C3_amended_capacity_witness :
    ((([("a", 0), ("b", 7)] : List (String × Nat)).foldl
        (fun c p => markMessageProcessed p.1 p.2 c)
        emptyDedupCache).processedMessageIds).length ≤ DEDUP_CACHE_MAX_SIZE :=
  claim_C3_amended_capacity [("a", 0), ("b", 7)] (by decide)

/-! ## The capacity bound fails on the empty-string key -/

theorem cleanupDedupCache_zero (c : DedupCache) : cleanupDedupCache 0 c = c := by
  unfold cleanupDedupCache
  have h1 : ∀ e : String × Nat, (!decide (DEDUP_CACHE_TTL < 0 - e.2)) = true := by
    intro e
    simp [Nat.zero_sub]
  have h2 : ∀ k, (!expiredInMap c.processedMessageTimestamps 0 k) = true := by
    intro k
    unfold expiredInMap
    simp [Nat.zero_sub]
  rw [List.filter_eq_self.mpr fun a _ => h2 a, List.filter_eq_self.mpr fun a _ => h1 a]

theorem foldl_mark_fresh (ks : List String) :
    ∀ c : DedupCache,
      c.processedMessageIds.length + ks.length ≤ DEDUP_CACHE_MAX_SIZE →
      (∀ k ∈ ks, c.processedMessageIds.contains k = false
        ∧ c.processedMessageTimestamps.any (fun e => e.1 == k) = false) →
      ks.Nodup →
      insertKeys ks c =
        ⟨c.processedMessageIds ++ ks,
          c.processedMessageTimestamps ++ ks.map (fun k => (k, 0))⟩ := by
  induction ks with
  | nil =>
    intro c _ _ _
    simp [insertKeys]
  | cons k ks ih =>
    intro c hlen hfresh hnd
    have hguard : ¬ DEDUP_CACHE_MAX_SIZE ≤ c.processedMessageIds.length := by
      simp only [List.length_cons] at hlen
      omega
    have hkfresh := hfresh k (List.mem_cons_self _ _)
    have hmark : markMessageProcessed k 0 c =
        ⟨c.processedMessageIds ++ [k], c.processedMessageTimestamps ++ [(k, 0)]⟩ := by
      simp only [markMessageProcessed, if_neg hguard]
      rw [setAdd, if_neg (by rw [hkfresh.1]; exact Bool.false_ne_true),
        mapSet, if_neg (by rw [hkfresh.2]; exact Bool.false_ne_true)]
    have hknotmem : k ∉ ks := (List.nodup_cons.mp hnd).1
    have step := ih ⟨c.processedMessageIds ++ [k], c.processedMessageTimestamps ++ [(k, 0)]⟩
      (by
        simp only [List.length_append, List.length_singleton, List.length_cons,
          List.length_nil] at hlen ⊢
        omega)
      (by
        intro k' hk'
        have hne : ¬ k' = k := fun hcontra => hknotmem (hcontra ▸ hk')
        have hf := hfresh k' (List.mem_cons_of_mem _ hk')
        constructor
        · rw [contains_false_iff_not_mem_str]
          intro hmem
          rcases List.mem_append.mp hmem with hmem | hmem
          · exact ((contains_false_iff_not_mem_str _ _).mp hf.1) hmem
          · exact hne (List.mem_singleton.mp hmem)
        · rw [List.any_append, hf.2]
          simp [Ne.symm hne])
      (List.nodup_cons.mp hnd).2
    show insertKeys (k :: ks) c = _
    rw [insertKeys, List.foldl_cons, hmark]
    rw [insertKeys] at step
    rw [step]
    simp

theorem c3keys_length : c3keys.length = DEDUP_CACHE_MAX_SIZE := by
  rw [c3keys]
  simp [DEDUP_CACHE_MAX_SIZE]

theorem c3key_data_length (i : Nat) : (c3key i).data.length = i + 1 := by
  rw [c3key]
  exact List.length_replicate _ _

theorem c3newKey_data_length : c3newKey.data.length = 10000 := by
  rw [c3newKey]
  exact List.length_replicate _ _

theorem c3key_injective : Function.Injective c3key := by
  intro i j h
  have h2 : (c3key i).data.length = (c3key j).data.length :=
    congrArg (fun s : String => s.data.length) h
  rw [c3key_data_length, c3key_data_length] at h2
  omega

theorem c3key_ne_empty (i : Nat) : c3key i ≠ "" := by
  intro h
  have h2 : (c3key i).data.length = ("" : String).data.length :=
    congrArg (fun s : String => s.data.length) h
  rw [c3key_data_length] at h2
  simp at h2

theorem c3keys_nodup : c3keys.Nodup := by
  rw [c3keys, List.nodup_cons]
  constructor
  · intro hmem
    obtain ⟨i, _, hi⟩ := List.mem_map.mp hmem
    exact c3key_ne_empty i hi
  · exact List.Nodup.map c3key_injective (List.nodup_range 9999)

theorem c3newKey_not_mem : c3newKey ∉ c3keys := by
  rw [c3keys]
  intro hmem
  rcases List.mem_cons.mp hmem with h | h
  · have h2 : c3newKey.data.length = ("" : String).data.length :=
      congrArg (fun s : String => s.data.length) h
    rw [c3newKey_data_length] at h2
    simp at h2
  · obtain ⟨i, hi, h⟩ := List.mem_map.mp h
    have h2 : (c3key i).data.length = c3newKey.data.length :=
      congrArg (fun s : String => s.data.length) h
    rw [c3key_data_length, c3newKey_data_length] at h2
    have := List.mem_range.mp hi
    omega

/-- Counterexample to claim C3 as stated: a sequence of 10001 insertions
(with arbitrary keys allowed, here the empty string first) after which the
cache holds 10001 > 10000 entries.  At the overflowing insertion the cache
is at capacity and nothing is TTL-expired; the oldest entry's key is `""`,
which the truthiness test `if (oldestId)` treats as absent, so no eviction
happens and the insert grows the cache past capacity. -/
theorem claim_C3_counterexample :
    DEDUP_CACHE_MAX_SIZE <
      (insertKeys (c3keys ++ [c3newKey]) emptyDedupCache).processedMessageIds.length := by
  have hmid : insertKeys c3keys emptyDedupCache = c3mid := by
    refine foldl_mark_fresh c3keys emptyDedupCache ?_ ?_ c3keys_nodup
    · rw [c3keys_length]
      simp [emptyDedupCache]
    · intro k _
      exact ⟨rfl, rfl⟩
  have hsplit : insertKeys (c3keys ++ [c3newKey]) emptyDedupCache
      = markMessageProcessed c3newKey 0 (insertKeys c3keys emptyDedupCache) := by
    simp only [insertKeys]
    rw [List.foldl_append, List.foldl_cons, List.foldl_nil]
  have hguard : DEDUP_CACHE_MAX_SIZE ≤ c3mid.processedMessageIds.length := by
    show DEDUP_CACHE_MAX_SIZE ≤ c3keys.length
    rw [c3keys_length]
  have hhead : c3mid.processedMessageTimestamps.head? = some ("", 0) := by
    show (c3keys.map (fun k => (k, 0))).head? = some ("", 0)
    rw [c3keys]
    rfl
  have hcontains : c3keys.contains c3newKey = false :=
    (contains_false_iff_not_mem_str _ _).mpr c3newKey_not_mem
  rw [hsplit, hmid]
  simp only [markMessageProcessed, cleanupDedupCache_zero, if_pos hguard, hhead]
  rw [if_neg (by simp)]
  show DEDUP_CACHE_MAX_SIZE < (setAdd c3mid.processedMessageIds c3newKey).length
  show DEDUP_CACHE_MAX_SIZE < (setAdd c3keys c3newKey).length
  rw [setAdd, if_neg (by rw [hcontains]; exact Bool.false_ne_true)]
  rw [List.length_append, c3keys_length]
  decide

/-! ## Persistence of processed marks -/

theorem isMessageProcessed_mark_self (c : DedupCache) (k : String) (now : Nat) :
    isMessageProcessed k (markMessageProcessed k now c) = true := by
  simp only [isMessageProcessed, markMessageProcessed]
  exact contains_setAdd_self _ _

theorem mem_cleanup_ids {c : DedupCache} {now : Nat} {k : String}
    (hk : k ∈ c.processedMessageIds)
    (hexp : expiredInMap c.processedMessageTimestamps now k = false) :
    k ∈ (cleanupDedupCache now c).processedMessageIds := by
  refine List.mem_filter.mpr ⟨hk, ?_⟩
  rw [hexp]
  rfl

/-- Claim C7: once `markMessageProcessed k` has run, `isMessageProcessed k`
is true, and it stays true across further cache operations unless one of the
three removal events occurs: a cleanup pass while `k` is TTL-expired, a
capacity-driven eviction that picks `k` as the oldest entry, or an explicit
clear.  The hypotheses say `k` is cached, is not expired at time `now'`, and
is not the eviction target at `now'`; the conclusion covers a fresh mark of
`k` itself, a cleanup pass, a mark of any other id, and the clear. -/
theorem claim_C7_processed_until_removal (c : DedupCache) (k msgId : String)
    (now now' : Nat)
    (hin : isMessageProcessed k c = true)
    (hexp : expiredInMap c.processedMessageTimestamps now' k = false)
    (hevict : markEvictTarget now' c ≠ some k) :
    isMessageProcessed k (markMessageProcessed k now c) = true
      ∧ isMessageProcessed k (cleanupDedupCache now' c) = true
      ∧ isMessageProcessed k (markMessageProcessed msgId now' c) = true
      ∧ isMessageProcessed k (clearDedupCache c) = false := by
  have hkmem : k ∈ c.processedMessageIds := (contains_iff_mem_str _ _).mp hin
  refine ⟨isMessageProcessed_mark_self c k now, ?_, ?_, rfl⟩
  · exact (contains_iff_mem_str _ _).mpr (mem_cleanup_ids hkmem hexp)
  · simp only [isMessageProcessed, markMessageProcessed]
    have hk1 : k ∈ (cleanupDedupCache now' c).processedMessageIds :=
      mem_cleanup_ids hkmem hexp
    refine contains_setAdd_of_mem ?_ msgId
    split
    · next hcap =>
      split
      · next hcap1 =>
        split
        · next oldest hhead =>
          split
          · next hone =>
            have htarget : markEvictTarget now' c = some oldest.1 := by
              simp only [markEvictTarget, if_pos hcap, if_pos hcap1, hhead]
              rw [if_pos hone]
            have hok : k ≠ oldest.1 := by
              intro hcontra
              exact hevict (by rw [htarget, hcontra])
            exact mem_setDelete_of_mem hk1 hok
          · next => exact hk1
        · next => exact hk1
      · next => exact hk1
    · next => exact hkmem

/-- Witness for claim C7 at a concrete cache, key and times. -/
theorem claim_C7_processed_until_removal_witness :
    isMessageProcessed "a" (markMessageProcessed "a" 3 c7cache) = true
      ∧ isMessageProcessed "a" (cleanupDedupCache 1 c7cache) = true
      ∧ isMessageProcessed "a" (markMessageProcessed "b" 1 c7cache) = true
      ∧ isMessageProcessed "a" (clearDedupCache c7cache) = false :=
  claim_C7_processed_until_removal c7cache "a" "b" 3 1 (by decide) (by decide) (by decide)

/-! ## Dispatcher behaviour -/

theorem robotCallback_snd_success (accountId : String) (now : Nat)
    (res : RobotCallbackInput) (st : DispatchState) :
    (robotCallback accountId now res st).2 = EventAck.SUCCESS := by
  simp only [robotCallback]
  split
  · split
    · rfl
    · rfl
  · rfl

/-- Claim C9: the registered callback acknowledges every delivered event
with SUCCESS — whether the payload fails to decode, the event is a
duplicate, or the fire-and-forget downstream handler later fails — so no
per-event error is ever signalled back to the transport; the callback
neither rejects the session's promise nor touches the session state (it
returns only a `DispatchState`). -/
theorem claim_C9_always_success_ack (accountId : String) (now : Nat)
    (res : RobotCallbackInput) (st : DispatchState) :
    (robotCallback accountId now res st).2 = EventAck.SUCCESS :=
  robotCallback_snd_success accountId now res st

theorem robotCallback_fresh_state (accountId : String) (now : Nat)
    (r : RobotCallbackInput) (st : DispatchState)
    (hp : r.parseOk = true)
    (hfresh : isMessageProcessed
        (dedupeIdOf accountId (attachStreamMessageId r.headerMessageId r.payload))
        st.cache = false) :
    (robotCallback accountId now r st).1.handlerCalls
        = st.handlerCalls
          ++ [dedupeIdOf accountId (attachStreamMessageId r.headerMessageId r.payload)]
      ∧ (robotCallback accountId now r st).1.cache
        = markMessageProcessed
            (dedupeIdOf accountId (attachStreamMessageId r.headerMessageId r.payload))
            now st.cache := by
  simp only [robotCallback, hp, if_true, hfresh]
  cases hf : r.handlerFails <;> simp [hf]

/-- Claim C1: two deliveries with the same computed dedupe key, arriving at
a cache where that key is fresh, invoke the downstream handler exactly once:
the first delivery appends exactly one handler invocation and marks the key
processed (before any asynchronous forwarding — the mark is visible in the
resulting cache), and the second delivery is dropped silently (no handler
invocation) while both deliveries are acknowledged with SUCCESS. -/
theorem claim_C1_duplicate_delivery_dropped (accountId : String) (now1 now2 : Nat)
    (r1 r2 : RobotCallbackInput) (st : DispatchState)
    (hp1 : r1.parseOk = true) (hp2 : r2.parseOk = true)
    (hkey : dedupeIdOf accountId (attachStreamMessageId r2.headerMessageId r2.payload)
        = dedupeIdOf accountId (attachStreamMessageId r1.headerMessageId r1.payload))
    (hfresh : isMessageProcessed
        (dedupeIdOf accountId (attachStreamMessageId r1.headerMessageId r1.payload))
        st.cache = false) :
    (robotCallback accountId now1 r1 st).1.handlerCalls
        = st.handlerCalls
          ++ [dedupeIdOf accountId (attachStreamMessageId r1.headerMessageId r1.payload)]
      ∧ isMessageProcessed
          (dedupeIdOf accountId (attachStreamMessageId r1.headerMessageId r1.payload))
          (robotCallback accountId now1 r1 st).1.cache = true
      ∧ (robotCallback accountId now2 r2 (robotCallback accountId now1 r1 st).1).1.handlerCalls
        = (robotCallback accountId now1 r1 st).1.handlerCalls
      ∧ (robotCallback accountId now1 r1 st).2 = EventAck.SUCCESS
      ∧ (robotCallback accountId now2 r2 (robotCallback accountId now1 r1 st).1).2
        = EventAck.SUCCESS := by
  obtain ⟨hcalls, hcache⟩ := robotCallback_fresh_state accountId now1 r1 st hp1 hfresh
  have hdup2 : isMessageProcessed
      (dedupeIdOf accountId (attachStreamMessageId r2.headerMessageId r2.payload))
      (robotCallback accountId now1 r1 st).1.cache = true := by
    rw [hkey, hcache]
    exact isMessageProcessed_mark_self _ _ _
  have h2nd : robotCallback accountId now2 r2 (robotCallback accountId now1 r1 st).1
      = ({ (robotCallback accountId now1 r1 st).1 with
            duplicateLogs := (robotCallback accountId now1 r1 st).1.duplicateLogs + 1 },
          .SUCCESS) := by
    generalize (robotCallback accountId now1 r1 st).1 = st1 at hdup2 ⊢
    simp only [robotCallback, hp2, if_true, hdup2]
  refine ⟨hcalls, ?_, ?_, robotCallback_snd_success accountId now1 r1 st, ?_⟩
  · rw [hcache]
    exact isMessageProcessed_mark_self _ _ _
  · rw [h2nd]
  · rw [h2nd]

/-- Witness for claim C1 at a concrete pair of deliveries sharing stream
message id `m1`. -/
theorem claim_C1_duplicate_delivery_dropped_witness :
    (robotCallback "default" 1 c1res1 c1state).1.handlerCalls
        = c1state.handlerCalls
          ++ [dedupeIdOf "default" (attachStreamMessageId c1res1.headerMessageId c1res1.payload)]
      ∧ isMessageProcessed
          (dedupeIdOf "default" (attachStreamMessageId c1res1.headerMessageId c1res1.payload))
          (robotCallback "default" 1 c1res1 c1state).1.cache = true
      ∧ (robotCallback "default" 2 c1res2 (robotCallback "default" 1 c1res1 c1state).1).1.handlerCalls
        = (robotCallback "default" 1 c1res1 c1state).1.handlerCalls
      ∧ (robotCallback "default" 1 c1res1 c1state).2 = EventAck.SUCCESS
      ∧ (robotCallback "default" 2 c1res2 (robotCallback "default" 1 c1res1 c1state).1).2
        = EventAck.SUCCESS :=
  claim_C1_duplicate_delivery_dropped "default" 1 2 c1res1 c1res2 c1state rfl rfl rfl
    (by decide)

/-! ## Lifecycle controller behaviour -/

theorem startedState_eq (a : String) :
    startedState a
      = ⟨some 0, some a, some 1, some 0, [⟨0, 1, true, false, true⟩], 2, 1, [0], [], [], []⟩ :=
  rfl

theorem trigger_startedState (a : String) (t : StopTrigger) :
    applyTrigger 0 (startedState a) t = stoppedState := by
  rw [startedState_eq]
  cases t <;> rfl

theorem trigger_stoppedState (t : StopTrigger) :
    applyTrigger 0 stoppedState t = stoppedState := by
  cases t <;> rfl

theorem triggers_stoppedState (ts : List StopTrigger) :
    applyTriggers 0 stoppedState ts = stoppedState := by
  induction ts with
  | nil => rfl
  | cons t ts ih =>
    simp only [applyTriggers, List.foldl_cons] at ih ⊢
    rw [trigger_stoppedState t, ih]

/-- Claim C2: from a running session, any non-empty sequence of teardown
triggers drawn from manual stop calls and abort-signal firings produces
exactly one teardown — exactly one transport disconnect and exactly one
resolution of the pending start promise — after which both a further stop
call and a further abort firing are no-ops; and a stop call in the idle
state is a no-op as well. -/
theorem claim_C2_single_teardown (a : String) (ts : List StopTrigger) (hne : ts ≠ []) :
    (applyTriggers 0 (startedState a) ts).disconnectCalls = [0]
      ∧ (applyTriggers 0 (startedState a) ts).resolvedPromises = [1]
      ∧ applyTrigger 0 (applyTriggers 0 (startedState a) ts) .stopCall
        = applyTriggers 0 (startedState a) ts
      ∧ applyTrigger 0 (applyTriggers 0 (startedState a) ts) .abortFire
        = applyTriggers 0 (startedState a) ts
      ∧ stopDingtalkMonitor initialGlobalState = initialGlobalState := by
  have hstop : applyTriggers 0 (startedState a) ts = stoppedState := by
    cases ts with
    | nil => exact absurd rfl hne
    | cons t ts' =>
      have h1 : applyTriggers 0 (startedState a) (t :: ts')
          = applyTriggers 0 stoppedState ts' := by
        simp only [applyTriggers, List.foldl_cons]
        rw [trigger_startedState a t]
      rw [h1, triggers_stoppedState]
  rw [hstop]
  exact ⟨rfl, rfl, trigger_stoppedState .stopCall, trigger_stoppedState .abortFire, rfl⟩

/-- Witness for claim C2: a stop call followed by a redundant second stop. -/
theorem claim_C2_single_teardown_witness :
    (applyTriggers 0 (startedState "default") [.stopCall, .stopCall]).disconnectCalls = [0]
      ∧ (applyTriggers 0 (startedState "default") [.stopCall, .stopCall]).resolvedPromises = [1]
      ∧ applyTrigger 0 (applyTriggers 0 (startedState "default") [.stopCall, .stopCall]) .stopCall
        = applyTriggers 0 (startedState "default") [.stopCall, .stopCall]
      ∧ applyTrigger 0 (applyTriggers 0 (startedState "default") [.stopCall, .stopCall]) .abortFire
        = applyTriggers 0 (startedState "default") [.stopCall, .stopCall]
      ∧ stopDingtalkMonitor initialGlobalState = initialGlobalState :=
  claim_C2_single_teardown "default" [.stopCall, .stopCall] (by decide)

/-- Claim C4, amended: when a session is active for an account X that is not
the empty string, a start call for a different account Y fails with the busy
error and the whole module state — client, account id, pending promise, stop
hook, and all effect logs — is left unchanged.  (The restriction to
non-empty X is forced: the busy guard tests `currentAccountId &&
currentAccountId !== accountId`, and JS truthiness treats the empty-string
account id as absent — see the counterexample below.) -/
theorem claim_C4_amended_busy_error (st : GlobalState) (c : Nat) (x y : String)
    (opts : MonitorDingtalkOpts)
    (hc : st.currentClient = some c) (hx : st.currentAccountId = some x)
    (hxe : x ≠ "") (hy : opts.accountIdOpt.getD "default" = y) (hxy : x ≠ y) :
    monitorDingtalkProvider opts st = (st, .error (.busy x)) := by
  have hb : busyConflict (some x) (opts.accountIdOpt.getD "default") = true := by
    rw [hy]
    simp [busyConflict, hxe, hxy]
  simp [monitorDingtalkProvider, hc, hb, hx]

/-- Witness for the amended claim C4: an active session for `"acct"` and a
start request for `"other"`. -/
theorem claim_C4_amended_busy_error_witness :
    monitorDingtalkProvider c4otherOpts c5started
      = (c5started, .error (.busy "acct")) :=
  claim_C4_amended_busy_error c5started 0 "acct" "other" c4otherOpts rfl rfl (by decide)
    rfl (by decide)

/-- Counterexample to claim C4 as stated: when the active session's account
id is the empty string (a legal start input), a start call for the distinct
account `"other"` does not fail with the busy error — the truthiness guard
skips the conflict check and the call returns the existing promise. -/
theorem claim_C4_counterexample :
    isMonitorActive c4emptyStarted = true
      ∧ getCurrentAccountId c4emptyStarted = some ""
      ∧ ("" : String) ≠ "other"
      ∧ (monitorDingtalkProvider c4otherOpts c4emptyStarted).2 = .ok 1
      ∧ (monitorDingtalkProvider c4otherOpts c4emptyStarted).1 = c4emptyStarted :=
  ⟨rfl, rfl, by decide, rfl, rfl⟩

/-- Claim C5: when a session is active for account X (with a pending
promise), a second start call for the same account X returns the very same
pending promise, and the module state is completely unchanged — in
particular no new transport client is constructed and no connect call is
made. -/
theorem claim_C5_same_account_reuse (st : GlobalState) (c p : Nat) (x : String)
    (opts : MonitorDingtalkOpts)
    (hc : st.currentClient = some c) (hx : st.currentAccountId = some x)
    (hp : st.currentPromise = some p) (hacc : opts.accountIdOpt.getD "default" = x) :
    monitorDingtalkProvider opts st = (st, .ok p) := by
  have hb : busyConflict (some x) (opts.accountIdOpt.getD "default") = false := by
    rw [hacc]
    simp [busyConflict]
  simp [monitorDingtalkProvider, hc, hp, hb, hx]

/-- Witness for claim C5: restarting for `"acct"` while its session runs. -/
theorem claim_C5_same_account_reuse_witness :
    monitorDingtalkProvider c5opts c5started = (c5started, .ok 1) :=
  claim_C5_same_account_reuse c5started 0 1 "acct" c5opts rfl rfl rfl rfl

/-- Claim C6: when the abort signal is already cancelled at call time (with
configuration present, no active session, and a successfully constructed
client), the start call returns an already-resolved promise and the session
never stays Active: immediately after the call, status reports inactive with
a null account id. -/
theorem claim_C6_pre_aborted_start (st : GlobalState) (opts : MonitorDingtalkOpts)
    (hc : st.currentClient = none) (hcfg : opts.hasConfig = true)
    (hcon : opts.constructFails = false) (hsig : opts.hasSignal = true)
    (hab : opts.aborted = true) :
    (monitorDingtalkProvider opts st).2 = .ok (st.nextId + 1)
      ∧ (monitorDingtalkProvider opts st).1.resolvedPromises
        = st.resolvedPromises ++ [st.nextId + 1]
      ∧ isMonitorActive (monitorDingtalkProvider opts st).1 = false
      ∧ getCurrentAccountId (monitorDingtalkProvider opts st).1 = none := by
  refine ⟨?_, ?_, ?_, ?_⟩ <;>
    simp [monitorDingtalkProvider, finalizeResolve, sessionCleanup, isMonitorActive,
      getCurrentAccountId, hc, hcfg, hcon, hsig, hab, List.getElem?_concat_length]

/-- Witness for claim C6 at the pristine module state. -/
theorem claim_C6_pre_aborted_start_witness :
    (monitorDingtalkProvider c6opts initialGlobalState).2
        = .ok (initialGlobalState.nextId + 1)
      ∧ (monitorDingtalkProvider c6opts initialGlobalState).1.resolvedPromises
        = initialGlobalState.resolvedPromises ++ [initialGlobalState.nextId + 1]
      ∧ isMonitorActive (monitorDingtalkProvider c6opts initialGlobalState).1 = false
      ∧ getCurrentAccountId (monitorDingtalkProvider c6opts initialGlobalState).1 = none :=
  claim_C6_pre_aborted_start initialGlobalState c6opts rfl rfl rfl rfl rfl

/-- Claim C8: a start call with the DingTalk configuration absent (and no
active session) fails immediately with the configuration error, before any
client is constructed or any connection attempted: the returned state is the
input state unchanged, and status still reports inactive. -/
theorem claim_C8_missing_config (st : GlobalState) (opts : MonitorDingtalkOpts)
    (hc : st.currentClient = none) (hcfg : opts.hasConfig = false) :
    monitorDingtalkProvider opts st = (st, .error .configNotFound)
      ∧ isMonitorActive st = false := by
  constructor
  · simp [monitorDingtalkProvider, hc, hcfg]
  · simp [isMonitorActive, hc]

/-- Witness for claim C8 at the pristine module state. -/
theorem claim_C8_missing_config_witness :
    monitorDingtalkProvider c8opts initialGlobalState
        = (initialGlobalState, .error .configNotFound)
      ∧ isMonitorActive initialGlobalState = false :=
  claim_C8_missing_config initialGlobalState c8opts rfl rfl

end DingtalkMonitor

